import Mathlib

/-
Shallow embedding of the Locust load-testing suite:
  src/loadtest/locust/locustfile.py
  src/loadtest/locust/scenarios/performance_demo.py

Modelling conventions:
* Python numbers (ints and floats) are modelled as ℚ where they flow into
  arithmetic comparisons, and as ℕ where they are non-negative counters.
* Randomness is made explicit: each `random.randint` / `random.uniform` /
  `random.random` draw becomes a parameter (a natural-number or rational
  draw), so theorems quantify over every possible draw sequence.
* HTTP responses are passed in as explicit data (status code, body);
  a body that fails `response.json()` (or whose processing raises) is an
  `Except.error` carrying the exception message.
* JSON bodies are modelled as association lists from field names to the
  value type the task reads (ℚ for numeric metrics, Bool for flags);
  `dict.get(key, default)` becomes `jget` / `jgetB`.
-/

/-! Part: Random primitives (explicit-draw models of the `random` module) -/

/-- Model of `random.randint(a, b)`: an integer in `[a, b]`, selected by draw `d`. -/
def randint (a b : ℕ) (d : ℕ) : ℕ := a + d % (b + 1 - a)

/-- Model of `random.uniform(a, b)`: `a + (b - a) * random()` with `random()` draw `r ∈ [0, 1)`. -/
def uniform (a b : ℚ) (r : ℚ) : ℚ := a + (b - a) * r

/-! Part: locustfile.py: PerformanceThresholds and check_performance_thresholds -/

/-- The aggregate counters `stats.total` read by `check_performance_thresholds`. -/
structure StatsTotal where
  num_requests : ℕ
  num_failures : ℕ
  total_rps : ℚ
deriving DecidableEq

/-- Model of `PerformanceThresholds.MIN_SUCCESS_RATE = 95.0`. -/
def MIN_SUCCESS_RATE : ℚ := 95

/-- Model of `PerformanceThresholds.MIN_RPS = 100`. -/
def MIN_RPS : ℚ := 100

/-- Model of `success_rate = ((total_requests - total_failures) * 100.0) / total_requests`
(Python int subtraction, so computed over signed rationals). -/
def successRate (r f : ℕ) : ℚ := (((r : ℚ) - (f : ℚ)) * 100) / (r : ℚ)

/-- Model of `check_performance_thresholds(stats)`: collects threshold-violation issues
(the success-rate check runs only when `total_requests > 0`; the RPS check
always runs) and returns `True` iff the issue list is empty. -/
def check_performance_thresholds (stats : StatsTotal) : Bool :=
  let successIssues : List String :=
    if 0 < stats.num_requests then
      if successRate stats.num_requests stats.num_failures < MIN_SUCCESS_RATE then
        ["Success rate below threshold"]
      else []
    else []
  let rpsIssues : List String :=
    if stats.total_rps < MIN_RPS then ["RPS below threshold"] else []
  (successIssues ++ rpsIssues).isEmpty

/-! Part: locustfile.py: OltpDemoUser.make_request -/

/-- Outcome recorded on a caught response: `response.success()` or
`response.failure(msg)`. -/
inductive RequestOutcome where
  | success : RequestOutcome
  | failure (msg : String) : RequestOutcome
deriving DecidableEq

/-- The status-code classification inside `make_request`'s `with` block:
200 → success, 500 → server-error failure (first 100 chars of the body),
404 → not-found failure naming the endpoint, anything else → unexpected-status
failure. -/
def classify_response (endpoint : String) (status_code : ℕ) (text : String) :
    RequestOutcome :=
  if status_code = 200 then .success
  else if status_code = 500 then .failure ("Server error: " ++ text.take 100)
  else if status_code = 404 then .failure ("Not found: " ++ endpoint)
  else .failure ("Unexpected status: " ++ toString status_code)

/-- Model of `make_request(method, endpoint, name, **kwargs)`: the recorded request name
(`name or f"{method} {endpoint}"`) paired with the recorded outcome.  `exc`
models whether an exception was raised inside the try block during
classification: `some e` lands in the `except` handler, which records
`failure("Exception: " + str(e))` instead of propagating. -/
def make_request (method endpoint : String) (nm : Option String)
    (status_code : ℕ) (text : String) (exc : Option String) :
    String × RequestOutcome :=
  (nm.getD (method ++ " " ++ endpoint),
   match exc with
   | some e => .failure ("Exception: " ++ e)
   | none => classify_response endpoint status_code text)

/-! Part: locustfile.py: data generators -/

/-- Python `round` on a rational: round half to even (banker's rounding),
as `round(x)` does on exact values. -/
def roundHalfEven (q : ℚ) : ℤ :=
  if q - (⌊q⌋ : ℚ) < 1/2 then ⌊q⌋
  else if 1/2 < q - (⌊q⌋ : ℚ) then ⌊q⌋ + 1
  else if ⌊q⌋ % 2 = 0 then ⌊q⌋ else ⌊q⌋ + 1

/-- Model of `round(x, 2)`: round to 2 decimal places. -/
def roundTo2 (q : ℚ) : ℚ := ((roundHalfEven (q * 100) : ℤ) : ℚ) / 100

/-- Model of `random.choice(seq)`: `seq[i]` for an index draw `i` (reduced mod the
length; only applied to non-empty literal lists in this code). -/
def random_choice (xs : List String) (d : ℕ) : String :=
  xs.getD (d % xs.length) ""

/-- The status population in `generate_account_data`. -/
def statusChoices : List String := ["ACTIVE", "ACTIVE", "ACTIVE", "SUSPENDED"]

/-- The dict built by `generate_account_data`. -/
structure AccountData where
  userId : ℕ
  accountTypeId : ℕ
  balance : ℚ
  status : String
deriving DecidableEq

/-- Model of `generate_account_data()`: random userId in [1,100], accountTypeId in
[1,3], balance `round(uniform(100, 10000), 2)`, status drawn from
`statusChoices`.  Each `d*` / `r` argument is one random draw. -/
def generate_account_data (dUser dType : ℕ) (rBal : ℚ) (dStatus : ℕ) :
    AccountData :=
  { userId := randint 1 100 dUser
    accountTypeId := randint 1 3 dType
    balance := roundTo2 (uniform 100 10000 rBal)
    status := random_choice statusChoices dStatus }

/-- The dict built by `generate_transfer_data`. -/
structure TransferData where
  fromAccountId : ℕ
  toAccountId : ℕ
  amount : ℚ
deriving DecidableEq

/-- The `to_account` draw-and-redraw loop of `generate_transfer_data`:
take the next `randint(1, 100)` draw; while it equals `from_account`,
redraw.  Modelled on a finite draw list, `none` when the list is exhausted
before the loop exits (the dict is only returned once a draw differs). -/
def pick_to_account (from_account : ℕ) : List ℕ → Option ℕ
  | [] => none
  | d :: rest =>
      let t := randint 1 100 d
      if t = from_account then pick_to_account from_account rest else some t

/-- Model of `generate_transfer_data()`: `from_account = randint(1,100)`; `to_account`
redrawn until it differs; amount `round(uniform(10, 500), 2)`. -/
def generate_transfer_data (dFrom : ℕ) (toDraws : List ℕ) (rAmt : ℚ) :
    Option TransferData :=
  let from_account := randint 1 100 dFrom
  match pick_to_account from_account toDraws with
  | some to_account =>
      some { fromAccountId := from_account
             toAccountId := to_account
             amount := roundTo2 (uniform 10 500 rAmt) }
  | none => none

/-! Part: locustfile.py: weighted_choice (via random.choices) -/

/-- Model of `itertools.accumulate(weights)` starting from accumulator `acc`. -/
def cumFrom (acc : ℚ) : List ℚ → List ℚ
  | [] => []
  | w :: ws => (acc + w) :: cumFrom (acc + w) ws

/-- The cumulative weights `list(accumulate(weights))` built by
`random.choices`. -/
def cumWeights (ws : List ℚ) : List ℚ := cumFrom 0 ws

/-- Model of `bisect.bisect_right(cum, u)` on a sorted list: the insertion point of
`u`, keeping elements `≤ u` to the left. -/
def bisectRight (cum : List ℚ) (u : ℚ) : ℕ :=
  match cum with
  | [] => 0
  | c :: rest => if u < c then 0 else 1 + bisectRight rest u

/-- Model of `weighted_choice(choices_with_weights)` =
`random.choices(choices, weights=weights, k=1)[0]` after
`choices, weights = zip(*choices_with_weights)`.
On the empty list the unpacking raises (`.error`); `random.choices` raises
when the weight total is not positive; otherwise it indexes the population
at `bisect(cum_weights, random() * total, 0, len - 1)` where `u` is the
`random()` draw. -/
def weighted_choice {α : Type} (cws : List (α × ℚ)) (u : ℚ) :
    Except String α :=
  match cws with
  | [] => .error "not enough values to unpack (expected 2, got 0)"
  | c :: rest =>
      let choices := (c :: rest).map Prod.fst
      let weights := (c :: rest).map Prod.snd
      let cum := cumWeights weights
      let total := cum.getLastD 0
      if total ≤ 0 then .error "Total of weights must be greater than zero"
      else
        match choices.get? (bisectRight (cum.take (choices.length - 1)) (u * total)) with
        | some a => .ok a
        | none => .error "list index out of range"

/-! Part: scenarios/performance_demo.py: task bodies

Each task issues one request and marks it success/failure from the response.
A task body is modelled as a function of the response's status code and of
its JSON body (`Except.error e` when `response.json()` or the subsequent
field processing raised, carrying the exception text). -/

/-- The mark recorded on a caught response by a scenario task. -/
inductive TaskResult where
  | success : TaskResult
  | failure (msg : String) : TaskResult
deriving DecidableEq

/-- Whether the task marked the request failed. -/
def TaskResult.isFailure : TaskResult → Bool
  | .success => false
  | .failure _ => true

/-- Model of `data.get(key, default)` on a JSON body with numeric values. -/
def jget (data : List (String × ℚ)) (key : String) (default : ℚ) : ℚ :=
  match data.lookup key with
  | some v => v
  | none => default

/-- Model of `data.get(key, default)` on a JSON body with boolean values. -/
def jgetB (data : List (String × Bool)) (key : String) (default : Bool) : Bool :=
  match data.lookup key with
  | some v => v
  | none => default

/-- Model of `ConnectionPoolingTasks.test_pooled_connections`: on a 200 response,
success iff `speedupFactor` (default 0) exceeds 2.0; non-200 → HTTP failure;
a raising body → parse failure. -/
def test_pooled_connections (status_code : ℕ)
    (body : Except String (List (String × ℚ))) : TaskResult :=
  if status_code = 200 then
    match body with
    | .ok data =>
        let speedup := jget data "speedupFactor" 0
        if 2 < speedup then .success
        else .failure ("Insufficient speedup: " ++ toString speedup ++ "x (expected > 2x)")
    | .error e => .failure ("Failed to parse response: " ++ e)
  else .failure ("HTTP " ++ toString status_code)

/-- The try-block of `ConnectionPoolingTasks.test_concurrent_pooling` on parsed
data: `success_rate = (data.get("successfulQueries", 0) * 100.0) /
data.get("totalQueries", 1)`.  A zero divisor raises ZeroDivisionError
(`Except.error`); otherwise success iff the rate is at least 95.0. -/
def concurrent_try_body (data : List (String × ℚ)) : Except String TaskResult :=
  let num := jget data "successfulQueries" 0 * 100
  let den := jget data "totalQueries" 1
  if den = 0 then .error "float division by zero"
  else
    let success_rate := num / den
    if 95 ≤ success_rate then .ok .success
    else .ok (.failure ("Low success rate: " ++ toString success_rate ++ "%"))

/-- Model of `ConnectionPoolingTasks.test_concurrent_pooling`: on a 200 response runs
`concurrent_try_body`; any exception it raises is caught and recorded as a
parse failure; non-200 → HTTP failure. -/
def test_concurrent_pooling (status_code : ℕ)
    (body : Except String (List (String × ℚ))) : TaskResult :=
  if status_code = 200 then
    match body with
    | .ok data =>
        match concurrent_try_body data with
        | .ok r => r
        | .error e => .failure ("Failed to parse response: " ++ e)
    | .error e => .failure ("Failed to parse response: " ++ e)
  else .failure ("HTTP " ++ toString status_code)

/-- Model of `BatchOperationsTasks.test_batch_operations`: on a 200 response, success
iff `speedupFactor` (default 0) exceeds 3.0. -/
def test_batch_operations (status_code : ℕ)
    (body : Except String (List (String × ℚ))) : TaskResult :=
  if status_code = 200 then
    match body with
    | .ok data =>
        let speedup := jget data "speedupFactor" 0
        if 3 < speedup then .success
        else .failure ("Insufficient speedup: " ++ toString speedup ++ "x (expected > 3x)")
    | .error e => .failure ("Failed to parse response: " ++ e)
  else .failure ("HTTP " ++ toString status_code)

/-- Model of `CachingTasks.test_caching`: on a 200 response, success iff
`speedupFactor` (default 0) exceeds 1.5 and `cacheHitRate` (default 0)
exceeds 70. -/
def test_caching (status_code : ℕ)
    (body : Except String (List (String × ℚ))) : TaskResult :=
  if status_code = 200 then
    match body with
    | .ok data =>
        let speedup := jget data "speedupFactor" 0
        let hit_rate := jget data "cacheHitRate" 0
        if 3/2 < speedup ∧ 70 < hit_rate then .success
        else .failure ("Insufficient performance: " ++ toString speedup ++
          "x speedup, " ++ toString hit_rate ++ "% hit rate")
    | .error e => .failure ("Failed to parse response: " ++ e)
  else .failure ("HTTP " ++ toString status_code)

/-- Model of `IndexingTasks.test_indexed_query_explain`: on a 200 response, success iff
`usedIndex` (default False) is true. -/
def test_indexed_query_explain (status_code : ℕ)
    (body : Except String (List (String × Bool))) : TaskResult :=
  if status_code = 200 then
    match body with
    | .ok data =>
        if jgetB data "usedIndex" false then .success
        else .failure "Query did not use index"
    | .error e => .failure ("Failed to parse response: " ++ e)
  else .failure ("HTTP " ++ toString status_code)

/-! ## Theorems -/

/-- C1: `check_performance_thresholds` returns false exactly when the success
rate computed from the counters (only computed when requests > 0, since at
requests = 0 the Python expression would divide by zero and the code skips
the check) is below 95.0, or the RPS value is below 100; true otherwise, for
all counters with failures ≤ requests, including requests = 0. -/
theorem check_performance_thresholds_spec (r f : ℕ) (rps : ℚ) (_hf : f ≤ r) :
    check_performance_thresholds ⟨r, f, rps⟩ = false ↔
      ((0 < r ∧ successRate r f < 95) ∨ rps < 100) := by
  unfold check_performance_thresholds MIN_SUCCESS_RATE MIN_RPS
  by_cases h0 : 0 < r <;> by_cases h1 : successRate r f < 95 <;>
    by_cases h2 : rps < 100 <;>
    simp [h0, h1, h2]

/-- C1 witness: at 100 requests, 10 failures, RPS 200 the success rate is
90% < 95%, so the checker returns false. -/
theorem check_performance_thresholds_spec_witness :
    check_performance_thresholds ⟨100, 10, 200⟩ = false :=
  (check_performance_thresholds_spec 100 10 200 (by norm_num)).mpr
    (Or.inl ⟨by norm_num, by norm_num [successRate]⟩)

/-- C2: `make_request` classifies by status code — 200 is marked success,
500 failure with a server-error message (first 100 chars of the body text),
404 failure with a not-found message naming the endpoint, any other status
failure with an unexpected-status message — and an exception raised during
classification is caught and recorded as an exception failure, never
propagated; all for every method, endpoint, custom name and body text. -/
theorem make_request_classifies (method endpoint text : String)
    (nm : Option String) (status : ℕ) :
    (make_request method endpoint nm 200 text none).2 = .success ∧
    (make_request method endpoint nm 500 text none).2 =
      .failure ("Server error: " ++ text.take 100) ∧
    (make_request method endpoint nm 404 text none).2 =
      .failure ("Not found: " ++ endpoint) ∧
    (status ≠ 200 → status ≠ 500 → status ≠ 404 →
      (make_request method endpoint nm status text none).2 =
        .failure ("Unexpected status: " ++ toString status)) ∧
    (∀ e, (make_request method endpoint nm status text (some e)).2 =
      .failure ("Exception: " ++ e)) := by
  refine ⟨rfl, rfl, rfl, ?_, fun e => rfl⟩
  intro h200 h500 h404
  simp [make_request, classify_response, h200, h500, h404]

/-- C2 witness: a 403 response is recorded as an unexpected-status failure. -/
theorem make_request_classifies_witness :
    (make_request "GET" "/actuator/health" none 403 "" none).2 =
      .failure ("Unexpected status: " ++ toString 403) :=
  (make_request_classifies "GET" "/actuator/health" "" none 403).2.2.2.1
    (by decide) (by decide) (by decide)

/-- The redraw loop only ever hands back a value different from
`from_account`. -/
lemma pick_to_account_ne (fa : ℕ) (draws : List ℕ) (t : ℕ)
    (h : pick_to_account fa draws = some t) : t ≠ fa := by
  induction draws with
  | nil => simp [pick_to_account] at h
  | cons d rest ih =>
      rw [pick_to_account] at h
      by_cases hd : randint 1 100 d = fa
      · rw [if_pos hd] at h
        exact ih h
      · rw [if_neg hd] at h
        cases h
        exact hd

/-- C3: every transfer dict that `generate_transfer_data` returns has
`fromAccountId ≠ toAccountId`, for every draw sequence (the redraw loop only
exits once the two ids differ; if the modelled draw list runs out the dict is
never produced). -/
theorem generate_transfer_data_distinct (dFrom : ℕ) (toDraws : List ℕ)
    (rAmt : ℚ) (t : TransferData)
    (h : generate_transfer_data dFrom toDraws rAmt = some t) :
    t.fromAccountId ≠ t.toAccountId := by
  simp only [generate_transfer_data] at h
  rcases hp : pick_to_account (randint 1 100 dFrom) toDraws with _ | to_acct
  · rw [hp] at h; cases h
  · rw [hp] at h
    cases h
    exact fun hEq => pick_to_account_ne _ _ _ hp hEq.symm

/-- C3 witness: with `from` drawn as 1 and the single `to` draw giving 2,
the returned dict has distinct account ids. -/
theorem generate_transfer_data_distinct_witness : (1 : ℕ) ≠ 2 :=
  generate_transfer_data_distinct 0 [1] 0
    ⟨1, 2, roundTo2 (uniform 10 500 0)⟩ rfl

/-- Rounding never drops below an integer lower bound of the argument. -/
lemma le_roundHalfEven {z : ℤ} {q : ℚ} (h : (z : ℚ) ≤ q) :
    z ≤ roundHalfEven q := by
  have hz : z ≤ ⌊q⌋ := Int.le_floor.mpr h
  unfold roundHalfEven
  split_ifs <;> omega

/-- Rounding never exceeds an integer upper bound of the argument. -/
lemma roundHalfEven_le {z : ℤ} {q : ℚ} (h : q ≤ (z : ℚ)) :
    roundHalfEven q ≤ z := by
  have hz : ⌊q⌋ ≤ z := by
    have h2 := Int.floor_le_floor h
    simpa using h2
  have hfl : (⌊q⌋ : ℚ) ≤ q := Int.floor_le q
  unfold roundHalfEven
  split_ifs with h1 h2 h3
  · exact hz
  · push_neg at h1
    have hlt : (⌊q⌋ : ℚ) < (z : ℚ) := by linarith
    have : ⌊q⌋ < z := by exact_mod_cast hlt
    omega
  · exact hz
  · push_neg at h1
    have hlt : (⌊q⌋ : ℚ) < (z : ℚ) := by linarith
    have : ⌊q⌋ < z := by exact_mod_cast hlt
    omega

/-- C7: every account dict produced by `generate_account_data` (for any
draws, with the `random()` draw in `[0, 1)`) has a balance in `[100, 10000]`
that is an exact multiple of 1/100 (rounded to 2 decimals), and a status
drawn from the fixed 4-element weighted population, hence equal to
"ACTIVE" or "SUSPENDED". -/
theorem generate_account_data_spec (dUser dType dStatus : ℕ) (rBal : ℚ)
    (hr0 : 0 ≤ rBal) (hr1 : rBal < 1) :
    100 ≤ (generate_account_data dUser dType rBal dStatus).balance ∧
    (generate_account_data dUser dType rBal dStatus).balance ≤ 10000 ∧
    (∃ z : ℤ, (generate_account_data dUser dType rBal dStatus).balance = (z : ℚ) / 100) ∧
    ((generate_account_data dUser dType rBal dStatus).status = "ACTIVE" ∨
     (generate_account_data dUser dType rBal dStatus).status = "SUSPENDED") := by
  have hu1 : (100 : ℚ) ≤ uniform 100 10000 rBal := by
    unfold uniform; nlinarith
  have hu2 : uniform 100 10000 rBal ≤ 10000 := by
    unfold uniform; nlinarith
  have hlo : (10000 : ℤ) ≤ roundHalfEven (uniform 100 10000 rBal * 100) := by
    apply le_roundHalfEven
    push_cast
    nlinarith
  have hhi : roundHalfEven (uniform 100 10000 rBal * 100) ≤ (1000000 : ℤ) := by
    apply roundHalfEven_le
    push_cast
    nlinarith
  have hloQ : (10000 : ℚ) ≤ (roundHalfEven (uniform 100 10000 rBal * 100) : ℚ) := by
    exact_mod_cast hlo
  have hhiQ : ((roundHalfEven (uniform 100 10000 rBal * 100) : ℤ) : ℚ) ≤ 1000000 := by
    exact_mod_cast hhi
  refine ⟨?_, ?_, ⟨roundHalfEven (uniform 100 10000 rBal * 100), rfl⟩, ?_⟩
  · show (100 : ℚ) ≤ roundTo2 (uniform 100 10000 rBal)
    unfold roundTo2
    linarith
  · show roundTo2 (uniform 100 10000 rBal) ≤ 10000
    unfold roundTo2
    linarith
  · show random_choice statusChoices dStatus = "ACTIVE" ∨
        random_choice statusChoices dStatus = "SUSPENDED"
    have h4 : dStatus % 4 = 0 ∨ dStatus % 4 = 1 ∨ dStatus % 4 = 2 ∨ dStatus % 4 = 3 := by
      omega
    rcases h4 with h | h | h | h <;>
      simp [random_choice, statusChoices, h]

/-- C7 witness: with all draws zero the generated account has balance 100,
a multiple of 1/100 in range, and status "ACTIVE". -/
theorem generate_account_data_spec_witness :
    100 ≤ (generate_account_data 0 0 0 0).balance ∧
    (generate_account_data 0 0 0 0).balance ≤ 10000 ∧
    (∃ z : ℤ, (generate_account_data 0 0 0 0).balance = (z : ℚ) / 100) ∧
    ((generate_account_data 0 0 0 0).status = "ACTIVE" ∨
     (generate_account_data 0 0 0 0).status = "SUSPENDED") :=
  generate_account_data_spec 0 0 0 0 (by norm_num) (by norm_num)

/-- C4: the connection-pooling task marks a 200 response with
`speedupFactor = 3.0` as success and one with `speedupFactor = 1.0` as
failure; in general a parsed 200 response is a success exactly when the
speedup factor (default 0) strictly exceeds 2.0. -/
theorem test_pooled_connections_spec :
    test_pooled_connections 200 (.ok [("speedupFactor", (3 : ℚ))]) = .success ∧
    (test_pooled_connections 200 (.ok [("speedupFactor", (1 : ℚ))])).isFailure = true ∧
    (∀ data, test_pooled_connections 200 (.ok data) = .success ↔
      2 < jget data "speedupFactor" 0) := by
  refine ⟨by decide, by decide, fun data => ?_⟩
  by_cases h : 2 < jget data "speedupFactor" 0 <;>
    simp [test_pooled_connections, h]

/-- C5: the indexing-explain task marks a 200 response with
`usedIndex = false` as failure and one with `usedIndex = true` as success;
in general a parsed 200 response is a success exactly when the `usedIndex`
flag (default false) is true. -/
theorem test_indexed_query_explain_spec :
    (test_indexed_query_explain 200 (.ok [("usedIndex", false)])).isFailure = true ∧
    test_indexed_query_explain 200 (.ok [("usedIndex", true)]) = .success ∧
    (∀ data, test_indexed_query_explain 200 (.ok data) = .success ↔
      jgetB data "usedIndex" false = true) := by
  refine ⟨by decide, by decide, fun data => ?_⟩
  by_cases h : jgetB data "usedIndex" false <;>
    simp [test_indexed_query_explain, h]

/-- C6: `weighted_choice` on the two-element list `[(A, 1), (B, 0)]` returns
`A` for every possible `random()` draw in `[0, 1)`: the zero-weight entry is
never selected. -/
theorem weighted_choice_zero_weight {α : Type} (A B : α) (u : ℚ)
    (_hu0 : 0 ≤ u) (hu1 : u < 1) :
    weighted_choice [(A, 1), (B, 0)] u = .ok A := by
  have hkey : u * (1 : ℚ) < 1 := by
    rw [mul_one]; exact hu1
  norm_num [weighted_choice, cumWeights, cumFrom, bisectRight,
    List.getLastD, hkey]
  rw [if_pos hu1]
  rfl

/-- C6 witness: at draw 1/2 the helper returns the weight-1 entry. -/
theorem weighted_choice_zero_weight_witness :
    weighted_choice [("A", 1), ("B", 0)] (1/2) = .ok "A" :=
  weighted_choice_zero_weight "A" "B" (1/2) (by norm_num) (by norm_num)

/-- The last cumulative weight is the accumulator plus the weight total. -/
lemma cumFrom_getLastD (ws : List ℚ) (acc d : ℚ) (h : ws ≠ []) :
    (cumFrom acc ws).getLastD d = acc + ws.sum := by
  induction ws generalizing acc d with
  | nil => exact absurd rfl h
  | cons w rest ih =>
      rcases rest with _ | ⟨w2, rest2⟩
      · simp [cumFrom, List.getLastD]
      · rw [cumFrom, List.getLastD_cons, ih (acc + w) (acc + w) (by simp)]
        simp [List.sum_cons]
        ring

/-- Helper bound: `bisectRight` never points past the end of the list. -/
lemma bisectRight_le (l : List ℚ) (u : ℚ) : bisectRight l u ≤ l.length := by
  induction l with
  | nil => simp [bisectRight]
  | cons c rest ih =>
      rw [bisectRight]
      split_ifs
      · simp
      · simpa [List.length_cons, Nat.add_comm] using ih

/-- Helper: `cumFrom` preserves length. -/
lemma cumFrom_length (ws : List ℚ) (acc : ℚ) :
    (cumFrom acc ws).length = ws.length := by
  induction ws generalizing acc with
  | nil => rfl
  | cons w rest ih => simp [cumFrom, ih]

/-- A list with positive sum has a positive element. -/
lemma exists_pos_of_sum_pos (l : List ℚ) (h : 0 < l.sum) : ∃ x ∈ l, 0 < x := by
  induction l with
  | nil => simp at h
  | cons w rest ih =>
      by_cases hw : 0 < w
      · exact ⟨w, List.mem_cons_self _ _, hw⟩
      · push_neg at hw
        rw [List.sum_cons] at h
        have : 0 < rest.sum := by linarith
        obtain ⟨x, hx, hxpos⟩ := ih this
        exact ⟨x, List.mem_cons_of_mem _ hx, hxpos⟩

/-- Non-negative weights with one positive element sum to a positive total. -/
lemma sum_pos_of_mem_pos (l : List ℚ) (hnn : ∀ x ∈ l, 0 ≤ x)
    (x : ℚ) (hx : x ∈ l) (hxpos : 0 < x) : 0 < l.sum := by
  have := List.single_le_sum hnn x hx
  linarith

/-- C10: `weighted_choice` on the empty list errors (the `zip(*[])` unpacking
raises) rather than returning a value; a value is returned only when the
input is non-empty and holds at least one strictly positive weight, and under
non-negative weights that precondition is also sufficient for every draw. -/
theorem weighted_choice_total_iff :
    (∀ u : ℚ, ∃ e, weighted_choice ([] : List (String × ℚ)) u = .error e) ∧
    (∀ (cws : List (String × ℚ)) (u : ℚ) (a : String),
        weighted_choice cws u = .ok a → cws ≠ [] ∧ ∃ p ∈ cws, 0 < p.2) ∧
    (∀ (cws : List (String × ℚ)) (u : ℚ), cws ≠ [] →
        (∀ p ∈ cws, 0 ≤ p.2) → (∃ p ∈ cws, 0 < p.2) →
        ∃ a, weighted_choice cws u = .ok a) := by
  refine ⟨fun u => ⟨_, rfl⟩, ?_, ?_⟩
  · intro cws u a h
    rcases cws with _ | ⟨c, rest⟩
    · simp [weighted_choice] at h
    · simp only [weighted_choice] at h
      by_cases ht : (cumWeights ((c :: rest).map Prod.snd)).getLastD 0 ≤ 0
      · rw [if_pos ht] at h; cases h
      · push_neg at ht
        refine ⟨by simp, ?_⟩
        have hlast : (cumWeights ((c :: rest).map Prod.snd)).getLastD 0 =
            ((c :: rest).map Prod.snd).sum := by
          rw [cumWeights, cumFrom_getLastD _ 0 0 (by simp)]
          ring
        have hsum : 0 < ((c :: rest).map Prod.snd).sum := by
          rw [← hlast]; exact ht
        obtain ⟨x, hx, hxpos⟩ := exists_pos_of_sum_pos _ hsum
        obtain ⟨p, hp, hpx⟩ := List.mem_map.mp hx
        exact ⟨p, hp, by rw [hpx]; exact hxpos⟩
  · intro cws u hne hnn hex
    rcases cws with _ | ⟨c, rest⟩
    · exact absurd rfl hne
    · simp only [weighted_choice]
      have hnnw : ∀ x ∈ (c :: rest).map Prod.snd, 0 ≤ x := by
        intro x hx
        obtain ⟨p, hp, hpx⟩ := List.mem_map.mp hx
        rw [← hpx]; exact hnn p hp
      obtain ⟨p, hp, hppos⟩ := hex
      have hpw : p.2 ∈ (c :: rest).map Prod.snd := List.mem_map_of_mem _ hp
      have hsum : 0 < ((c :: rest).map Prod.snd).sum :=
        sum_pos_of_mem_pos _ hnnw p.2 hpw hppos
      have hlast : (cumWeights ((c :: rest).map Prod.snd)).getLastD 0 =
          ((c :: rest).map Prod.snd).sum := by
        rw [cumWeights, cumFrom_getLastD _ 0 0 (by simp)]
        ring
      rw [if_neg (by rw [hlast]; linarith)]
      have hcumlen : (cumWeights ((c :: rest).map Prod.snd)).length =
          rest.length + 1 := by
        rw [cumWeights, cumFrom_length]; simp
      have hidx : bisectRight
          ((cumWeights ((c :: rest).map Prod.snd)).take
            (((c :: rest).map Prod.fst).length - 1))
          (u * (cumWeights ((c :: rest).map Prod.snd)).getLastD 0) <
          ((c :: rest).map Prod.fst).length := by
        have h1 := bisectRight_le
          ((cumWeights ((c :: rest).map Prod.snd)).take
            (((c :: rest).map Prod.fst).length - 1))
          (u * (cumWeights ((c :: rest).map Prod.snd)).getLastD 0)
        have h2 : (((cumWeights ((c :: rest).map Prod.snd)).take
            (((c :: rest).map Prod.fst).length - 1))).length ≤
            ((c :: rest).map Prod.fst).length - 1 := by
          simp [List.length_take]
        have h3 : ((c :: rest).map Prod.fst).length = rest.length + 1 := by simp
        omega
      rw [List.get?_eq_get hidx]
      exact ⟨_, rfl⟩

/-- C10 witness: a singleton list with weight 1 yields a value at draw 0. -/
theorem weighted_choice_total_iff_witness :
    ∃ a, weighted_choice [("only", (1 : ℚ))] 0 = .ok a :=
  weighted_choice_total_iff.2.2 [("only", (1 : ℚ))] 0 (by simp)
    (by intro p hp; simp at hp; rw [hp]; norm_num)
    ⟨("only", (1 : ℚ)), by simp, by norm_num⟩

/-- C8: in the caching and batch-operations tasks, a non-200 status, a
raising (malformed) body, and a failing acceptance predicate are each
recorded only through the response-marking call — an HTTP failure, a parse
failure, or a below-threshold failure respectively — and every outcome of a
task is a plain success or failure mark (nothing escapes, nothing is
retried: each task consumes exactly one response). -/
theorem scenario_failures_recorded (status : ℕ)
    (body : Except String (List (String × ℚ))) :
    (status ≠ 200 →
      test_caching status body = .failure ("HTTP " ++ toString status) ∧
      test_batch_operations status body = .failure ("HTTP " ++ toString status)) ∧
    (∀ e, body = .error e → status = 200 →
      test_caching status body = .failure ("Failed to parse response: " ++ e) ∧
      test_batch_operations status body = .failure ("Failed to parse response: " ++ e)) ∧
    (∀ data, body = .ok data → status = 200 →
      ¬ 3 < jget data "speedupFactor" 0 →
      (test_batch_operations status body).isFailure = true) ∧
    (∀ data, body = .ok data → status = 200 →
      ¬ (3/2 < jget data "speedupFactor" 0 ∧ 70 < jget data "cacheHitRate" 0) →
      (test_caching status body).isFailure = true) ∧
    (test_caching status body = .success ∨
      (test_caching status body).isFailure = true) ∧
    (test_batch_operations status body = .success ∨
      (test_batch_operations status body).isFailure = true) := by
  refine ⟨?_, ?_, ?_, ?_, ?_, ?_⟩
  · intro h
    exact ⟨by simp [test_caching, h], by simp [test_batch_operations, h]⟩
  · rintro e rfl rfl
    exact ⟨by simp [test_caching], by simp [test_batch_operations]⟩
  · rintro data rfl rfl h
    simp [test_batch_operations, TaskResult.isFailure, h]
  · rintro data rfl rfl h
    simp only [test_caching, if_pos rfl]
    rw [if_neg h]
    rfl
  · cases hc : test_caching status body with
    | success => exact Or.inl rfl
    | failure m => exact Or.inr rfl
  · cases hc : test_batch_operations status body with
    | success => exact Or.inl rfl
    | failure m => exact Or.inr rfl

/-- C8 witness: a 500 response is marked as an HTTP failure by both tasks. -/
theorem scenario_failures_recorded_witness :
    test_caching 500 (.ok []) = .failure ("HTTP " ++ toString 500) ∧
    test_batch_operations 500 (.ok []) = .failure ("HTTP " ++ toString 500) :=
  (scenario_failures_recorded 500 (.ok [])).1 (by decide)

/-- C9: in `test_concurrent_pooling`, a body without the `totalQueries` key
divides by the default 1 and the try-block completes without raising; a body
with `totalQueries = 0` raises ZeroDivisionError, which the handler turns
into a parse-failure mark; and every 200-response outcome is a plain
success/failure mark, so no exception escapes the task for any JSON body. -/
theorem test_concurrent_pooling_no_escape (data : List (String × ℚ)) :
    (data.lookup "totalQueries" = none →
      ∃ r, concurrent_try_body data = .ok r) ∧
    (∀ e, concurrent_try_body data = .error e →
      test_concurrent_pooling 200 (.ok data) =
        .failure ("Failed to parse response: " ++ e)) ∧
    (test_concurrent_pooling 200 (.ok data) = .success ∨
      (test_concurrent_pooling 200 (.ok data)).isFailure = true) ∧
    test_concurrent_pooling 200 (.ok [("totalQueries", 0)]) =
      .failure ("Failed to parse response: " ++ "float division by zero") := by
  refine ⟨?_, ?_, ?_, by rfl⟩
  · intro h
    simp only [concurrent_try_body, jget, h]
    rw [if_neg (by norm_num : ¬(1 : ℚ) = 0)]
    split
    · exact ⟨_, rfl⟩
    · exact ⟨_, rfl⟩
  · intro e he
    simp [test_concurrent_pooling, he]
  · cases hc : test_concurrent_pooling 200 (.ok data) with
    | success => exact Or.inl rfl
    | failure m => exact Or.inr rfl

/-- C9 witness: a body carrying only `successfulQueries` (no `totalQueries`)
runs the try-block to completion. -/
theorem test_concurrent_pooling_no_escape_witness :
    ∃ r, concurrent_try_body [("successfulQueries", (50 : ℚ))] = .ok r :=
  (test_concurrent_pooling_no_escape [("successfulQueries", (50 : ℚ))]).1 rfl
